import Mathlib

/-!
Verification of the NOx dashboard pipeline (khaoula2003SD/nox_application).

The four scripts (`ap_NOX.py`, `Nox1_creative.py`, `Nox2_creative.py`,
`Nox11_creative.py`) share one pipeline: parse an uploaded CSV, parse the
`date` column under the fixed pattern `%d.%m.%Y %H:%M`, drop the date and
the two reference columns, coerce the remaining columns to numbers with
failures becoming missing, impute missing cells with the per-column mean,
predict with two regression models, classify each prediction into
OK / ATTENTION / DANGER by inclusive thresholds, and export the augmented
table to CSV.  This file embeds those steps and proves or refutes the
specified properties.  Values and thresholds are modelled as rationals;
where IEEE NaN semantics matter a dedicated value domain with NaN is used.
-/

namespace NoxApp

/-- Alert classifier from `ap_NOX.py` (also `Nox2_creative.py` and, as
`get_alert`, `Nox11_creative.py`):
`if val >= seuil_dang: return "DANGER"; if val >= seuil_att: return "ATTENTION"; return "OK"`. -/
def alerte (val seuil_att seuil_dang : ℚ) : String :=
  if val ≥ seuil_dang then "DANGER"
  else if val ≥ seuil_att then "ATTENTION"
  else "OK"

/-- Alert classifier from `Nox1_creative.py`, whose labels carry emoji. -/
def alerteNox1 (val seuil_att seuil_dang : ℚ) : String :=
  if val ≥ seuil_dang then "🚨 DANGER"
  else if val ≥ seuil_att then "⚠️ ATTENTION"
  else "✅ OK"

/-- Severity rank of an alert label under the spec ordering
OK < ATTENTION < DANGER. -/
def sevOf (s : String) : ℕ :=
  if s = "DANGER" then 2 else if s = "ATTENTION" then 1 else 0

/-- Python's lexicographic string comparison: strict less-than on the
code-point sequences. -/
def lexLt : List Char → List Char → Bool
  | [], [] => false
  | [], _ :: _ => true
  | _ :: _, [] => false
  | a :: as, b :: bs =>
      if a.toNat < b.toNat then true
      else if a.toNat = b.toNat then lexLt as bs
      else false

/-- Combined alert from `Nox1_creative.py` / `Nox2_creative.py`:
`df[['Alerte_opsis','Alerte_baf']].max(axis=1)`, i.e. the lexicographic
maximum of the two label strings under Python string comparison. -/
def combinedAlert (opsis baf : String) : String :=
  if lexLt opsis.data baf.data then baf else opsis

/-- Modelled from the spec: the Combined Alert the spec defines, namely the
label of higher severity under OK < ATTENTION < DANGER (to be compared with
`combinedAlert`, the one the code computes). -/
def specSeverityMax (opsis baf : String) : String :=
  if sevOf opsis ≤ sevOf baf then baf else opsis

/-! ### Timestamps: `pd.to_datetime(df['date'], format="%d.%m.%Y %H:%M")`
and the ISO rendering `to_csv` uses for datetime columns. -/

/-- A parsed timestamp (the fields of the `%d.%m.%Y %H:%M` pattern). -/
structure Timestamp where
  day : ℕ
  month : ℕ
  year : ℕ
  hour : ℕ
  minute : ℕ
deriving DecidableEq, Repr

/-- Longest digit run at the front of a character list, and the rest. -/
def spanDigits (s : List Char) : List Char × List Char :=
  (s.takeWhile (·.isDigit), s.dropWhile (·.isDigit))

/-- Numeric value of a digit run (most significant first). -/
def charsToNat (l : List Char) : ℕ :=
  l.foldl (fun acc c => 10 * acc + (c.toNat - 48)) 0

/-- Strict parse of one cell of the `date` column under the fixed pattern
`%d.%m.%Y %H:%M`, as `pd.to_datetime(..., format=...)` applies it: digit
runs separated by the literal characters of the pattern, field values in
calendar range, and nothing left over (the whole string must match). -/
def parseDateL (s : List Char) : Option Timestamp :=
  match spanDigits s with
  | (ds, r1) =>
    if ds = [] then none else
    match r1 with
    | '.' :: r2 =>
      match spanDigits r2 with
      | (ms, r3) =>
        if ms = [] then none else
        match r3 with
        | '.' :: r4 =>
          match spanDigits r4 with
          | (ys, r5) =>
            if ys = [] then none else
            match r5 with
            | ' ' :: r6 =>
              match spanDigits r6 with
              | (hs, r7) =>
                if hs = [] then none else
                match r7 with
                | ':' :: r8 =>
                  match spanDigits r8 with
                  | (mins, r9) =>
                    if mins = [] ∨ r9 ≠ [] then none else
                    let d := charsToNat ds
                    let m := charsToNat ms
                    let h := charsToNat hs
                    let mi := charsToNat mins
                    if 1 ≤ d ∧ d ≤ 31 ∧ 1 ≤ m ∧ m ≤ 12 ∧ h ≤ 23 ∧ mi ≤ 59 then
                      some ⟨d, m, charsToNat ys, h, mi⟩
                    else none
                | _ => none
            | _ => none
        | _ => none
    | _ => none

/-- Parse one cell of the `date` column (string form). -/
def parseDate (s : String) : Option Timestamp := parseDateL s.data

/-- `pd.to_datetime` on the whole column with the default `errors='raise'`:
the column parses as a whole or the ingestion of the upload fails. -/
def parseAllDates : List String → Option (List Timestamp)
  | [] => some []
  | s :: rest =>
    match parseDate s, parseAllDates rest with
    | some t, some ts => some (t :: ts)
    | _, _ => none

/-- The character of one decimal digit. -/
def digitChar (d : ℕ) : Char := Char.ofNat (48 + d)

/-- Decimal digits of a natural number, most significant first; the fuel
only bounds the recursion depth and any fuel above the number of digits
gives the same answer. -/
def natDigitsAux : ℕ → ℕ → List Char
  | 0, _ => []
  | fuel + 1, n =>
      if n < 10 then [digitChar n]
      else natDigitsAux fuel (n / 10) ++ [digitChar (n % 10)]

/-- Decimal digits of a natural number, most significant first. -/
def natDigits (n : ℕ) : List Char := natDigitsAux (n + 1) n

/-- Two-digit zero padding, as `strftime`-style rendering uses. -/
def pad2 (n : ℕ) : List Char :=
  if n < 10 then '0' :: natDigits n else natDigits n

/-- The text a datetime64 cell becomes in `df.to_csv` output:
`YYYY-MM-DD HH:MM:SS` (pandas' ISO rendering of a Timestamp). -/
def formatISOL (t : Timestamp) : List Char :=
  natDigits t.year ++ '-' :: pad2 t.month ++ '-' :: pad2 t.day ++
    ' ' :: pad2 t.hour ++ ':' :: pad2 t.minute ++ ':' :: '0' :: '0' :: []

/-- String form of the exported datetime cell. -/
def formatISO (t : Timestamp) : String := ⟨formatISOL t⟩

/-! ### Feature assembly:
`X = df.drop(columns=['date','Nox_baf','Nox opsis'])` then
`X = X.apply(pd.to_numeric, errors='coerce').fillna(X.mean())`. -/

/-- Parse an unsigned decimal numeral, optionally with a fractional part,
as `pd.to_numeric` accepts it. -/
def parseUnsigned (s : List Char) : Option ℚ :=
  match spanDigits s with
  | (ip, r) =>
    if ip = [] then none else
    match r with
    | [] => some (charsToNat ip)
    | '.' :: fp =>
        if fp ≠ [] ∧ fp.all (·.isDigit) then
          some ((charsToNat ip : ℚ) + (charsToNat fp : ℚ) / (10 ^ fp.length))
        else none
    | _ => none

/-- Numeric coercion of one cell's text, `pd.to_numeric(errors='coerce')`
style: a failure becomes a missing marker, not an error. -/
def toNumeric (s : List Char) : Option ℚ :=
  match s with
  | '-' :: rest => (parseUnsigned rest).map (fun q => -q)
  | _ => parseUnsigned s

/-- `pd.read_csv(..., na_values=["null","NA"])` at the cell level: the empty
cell and the two configured markers read as missing. -/
def readCell (s : String) : Option String :=
  if s = "" ∨ s = "null" ∨ s = "NA" then none else some s

/-- One uploaded column as `read_csv` delivers it: missing markers read as
missing, every other cell as its text. -/
def readColumn (col : List String) : List (Option String) :=
  col.map readCell

/-- One feature column after cell-wise numeric coercion
(`X.apply(pd.to_numeric, errors='coerce')`): `none` is the missing marker
(NaN). -/
def coerceColumn (col : List (Option String)) : List (Option ℚ) :=
  col.map (fun c => c.bind (fun s => toNumeric s.data))

/-- Whether `read_csv` types the column numeric: every non-missing cell's
text is a numeral. Otherwise the column is object dtype (mixed text). -/
def numericDtype (col : List (Option String)) : Bool :=
  col.all (fun c => match c with | none => true | some s => (toNumeric s.data).isSome)

/-- Arithmetic mean of the non-missing values of a numeric column,
undefined (NaN, here `none`) when every value is missing. -/
def colMean (col : List (Option ℚ)) : Option ℚ :=
  if col.filterMap id = [] then none
  else some ((col.filterMap id).sum / (col.filterMap id).length)

/-- `X.mean()` for one column, evaluated — as in the source line
`X = X.apply(pd.to_numeric, errors='coerce').fillna(X.mean())` — on the
PRE-coercion frame (`X` is rebound only after the whole right-hand side):
a numeric-dtype column yields the mean of its non-missing values; an
object-dtype (mixed text) column is excluded as a nuisance column and
yields no fill value (pandas < 2.0 behaviour; pandas >= 2.0 raises a
TypeError at this point instead). -/
def rawColMean (col : List (Option String)) : Option ℚ :=
  if numericDtype col then colMean (coerceColumn col) else none

/-- `.fillna(X.mean())` for one column of the coerced frame: every missing
marker becomes the column's fill value when it has one; a column without a
fill value (object dtype, or an all-missing mean) keeps its markers. -/
def fillna (col : List (Option String)) : List (Option ℚ) :=
  match rawColMean col with
  | none => coerceColumn col
  | some m =>
      (coerceColumn col).map (fun c => match c with | some v => some v | none => some m)

/-- Whole feature-assembly step for one column. -/
def assembleColumn (col : List String) : List (Option ℚ) :=
  fillna (readColumn col)

/-! ### Tables and the two `df.drop` variants. -/

/-- A table is its columns in order: name and cell texts. -/
abbrev Table := List (String × List String)

/-- Column lookup, `df[name]`. -/
def getCol (t : Table) (name : String) : Option (List String) :=
  (t.find? (fun c => c.fst == name)).map Prod.snd

/-- Whether a column is present. -/
def hasCol (t : Table) (name : String) : Bool :=
  (t.find? (fun c => c.fst == name)).isSome

/-- The columns every script excludes from the feature matrix. -/
def excluded : List String := ["date", "Nox_baf", "Nox opsis"]

/-- `df.drop(columns=['date','Nox_baf','Nox opsis'])` as in `ap_NOX.py`,
`Nox1_creative.py`, `Nox2_creative.py`: a KeyError (here `none`) when any
listed column is absent. -/
def dropStrict (t : Table) : Option Table :=
  if excluded.all (fun c => hasCol t c) then
    some (t.filter (fun col => !excluded.contains col.fst))
  else none

/-- `df.drop(columns=..., errors='ignore')` as in `Nox11_creative.py`:
absent columns are skipped silently. -/
def dropIgnore (t : Table) : Table :=
  t.filter (fun col => !excluded.contains col.fst)

/-- Ingestion: `df['date'] = pd.to_datetime(df['date'], format=...)`.
A missing `date` column is a KeyError; an unparseable cell aborts the
whole upload. On success the parsed timestamps replace the date column's
values and the other columns are untouched. -/
def ingest (t : Table) : Option (List Timestamp × Table) :=
  match getCol t "date" with
  | none => none
  | some dc =>
    match parseAllDates dc with
    | none => none
    | some ts => some (ts, t)

/-- Ingestion followed by the strict feature drop (`ap_NOX.py` variants). -/
def prepareStrict (t : Table) : Option Table :=
  match ingest t with
  | none => none
  | some (_, t2) => dropStrict t2

/-- Ingestion followed by the ignoring feature drop (`Nox11_creative.py`). -/
def prepareIgnore (t : Table) : Option Table :=
  (ingest t).map (fun p => dropIgnore p.snd)

/-- Feature matrix from the dropped table: each remaining column coerced
and imputed. -/
def assembleFeatures (t : Table) : List (String × List (Option ℚ)) :=
  t.map (fun c => (c.fst, assembleColumn c.snd))

/-- Number of rows of a table (all columns share it in a DataFrame). -/
def nrows (t : Table) : ℕ :=
  match t with
  | [] => 0
  | c :: _ => c.snd.length

/-- Row `i` of the feature matrix. -/
def featureRow (fm : List (String × List (Option ℚ))) (i : ℕ) : List (Option ℚ) :=
  fm.map (fun c => (c.snd.get? i).join)

/-- The baf half of the `ap_NOX.py` pipeline, with the model abstract:
prepare the features, predict each row, and classify with the baf
thresholds (400, 500). Returns the `(Nox_baf_pred, Alerte_baf)` pairs. -/
def apNoxPipelineBaf (model : List (Option ℚ) → ℚ) (t : Table) :
    Option (List (ℚ × String)) :=
  match prepareStrict t with
  | none => none
  | some x =>
    let fm := assembleFeatures x
    some ((List.range (nrows x)).map (fun i =>
      let p := model (featureRow fm i)
      (p, alerte p 400 500)))

/-- Same pipeline through `Nox1_creative.py`, whose classifier emits the
emoji-prefixed labels. -/
def nox1PipelineBaf (model : List (Option ℚ) → ℚ) (t : Table) :
    Option (List (ℚ × String)) :=
  match prepareStrict t with
  | none => none
  | some x =>
    let fm := assembleFeatures x
    some ((List.range (nrows x)).map (fun i =>
      let p := model (featureRow fm i)
      (p, alerteNox1 p 400 500)))

/-- The scenario row of the end-to-end test: one record, two sensors, both
reference columns empty. -/
def scenarioTable : Table :=
  [("date", ["01.01.2024 10:00"]), ("sensorA", ["100"]), ("sensorB", ["50"]),
   ("Nox_baf", [""]), ("Nox opsis", [""])]

/-- An upload lacking the required `Nox_baf` reference column. -/
def missingBafTable : Table :=
  [("date", ["01.01.2024 10:00"]), ("sensorA", ["100"]), ("Nox opsis", ["200"])]

/-- A small collision-free upload, for instantiating export claims. -/
def sampleUpload : Table :=
  [("date", ["01.01.2024 10:00"]), ("sensorA", ["100"])]

/-- pandas column assignment `df[name] = vals`: when the column exists its
values are overwritten in place (the column keeps its position); otherwise
the new column is appended at the end. -/
def setCol (t : Table) (name : String) (vals : List String) : Table :=
  if hasCol t name then
    t.map (fun c => if c.fst == name then (name, vals) else c)
  else t ++ [(name, vals)]

/-- The four column names `ap_NOX.py` assigns before `df.to_csv`. -/
def derivedCols : List String :=
  ["Nox_baf_pred", "Nox_opsis_pred", "Alerte_baf", "Alerte_opsis"]

/-- The table `df.to_csv` writes in `ap_NOX.py`, at the cell-text level:
the uploaded table with the `date` column re-rendered in ISO text (its
values were replaced by parsed timestamps at ingestion) and the four
derived columns assigned in order, each assignment overwriting in place on
a name collision. The derived cell texts are abstract here. -/
def exportTable (t : Table) (ts : List Timestamp)
    (bafPred opsisPred bafAlert opsisAlert : List String) : Table :=
  setCol (setCol (setCol (setCol (setCol t "date" (ts.map formatISO))
    "Nox_baf_pred" bafPred) "Nox_opsis_pred" opsisPred) "Alerte_baf" bafAlert)
    "Alerte_opsis" opsisAlert

/-! ### Float values with NaN, for the comparisons the classifier makes. -/

/-- A double as the classifier sees it: NaN or a (finite) numeric value. -/
inductive FVal where
  | nan : FVal
  | fin : ℚ → FVal
deriving DecidableEq, Repr

/-- IEEE-754 `>=`: false whenever either side is NaN. -/
def fge : FVal → FVal → Bool
  | .fin a, .fin b => b ≤ a
  | _, _ => false

/-- The classifier over floats: the comparisons of `alerte` under IEEE
semantics. -/
def alerteF (val att dang : FVal) : String :=
  if fge val dang then "DANGER"
  else if fge val att then "ATTENTION"
  else "OK"

/-! ## Claims about the alert classifier -/

theorem alerte_danger_iff (v a d : ℚ) : alerte v a d = "DANGER" ↔ d ≤ v := by
  unfold alerte
  split_ifs with h1 h2
  · exact iff_of_true rfl h1
  · exact iff_of_false (by decide) h1
  · exact iff_of_false (by decide) h1

theorem alerte_attention_iff (v a d : ℚ) :
    alerte v a d = "ATTENTION" ↔ a ≤ v ∧ v < d := by
  unfold alerte
  split_ifs with h1 h2
  · exact iff_of_false (by decide) (fun hc => absurd h1 (not_le.mpr hc.2))
  · exact iff_of_true rfl ⟨h2, not_le.mp h1⟩
  · exact iff_of_false (by decide) (fun hc => h2 hc.1)

theorem alerte_ok_iff (v a d : ℚ) (had : a < d) :
    alerte v a d = "OK" ↔ v < a := by
  unfold alerte
  split_ifs with h1 h2
  · exact iff_of_false (by decide) (not_lt.mpr (le_of_lt (lt_of_lt_of_le had h1)))
  · exact iff_of_false (by decide) (not_lt.mpr h2)
  · exact iff_of_true rfl (not_le.mp h2)

/-- C1: for thresholds `a < d` the classifier returns DANGER exactly when
`v ≥ d`, ATTENTION exactly when `a ≤ v < d`, and OK exactly when `v < a`
(thresholds are inclusive lower bounds); in particular
`classify(500, 400, 500) = DANGER`, `classify(499.999, 400, 500) = ATTENTION`
and `classify(399.999, 400, 500) = OK`. -/
theorem alerte_inclusive_lower_bounds (v a d : ℚ) (had : a < d) :
    ((alerte v a d = "DANGER" ↔ d ≤ v) ∧
     (alerte v a d = "ATTENTION" ↔ a ≤ v ∧ v < d) ∧
     (alerte v a d = "OK" ↔ v < a)) ∧
    alerte 500 400 500 = "DANGER" ∧
    alerte 499.999 400 500 = "ATTENTION" ∧
    alerte 399.999 400 500 = "OK" := by
  refine ⟨⟨alerte_danger_iff v a d, alerte_attention_iff v a d,
    alerte_ok_iff v a d had⟩, by decide, ?_, ?_⟩ <;> norm_num [alerte]

/-- Witness for C1 at `v = 450, a = 400, d = 500`. -/
theorem alerte_inclusive_lower_bounds_witness :
    (400 : ℚ) < 500 ∧
    (((alerte 450 400 500 = "DANGER" ↔ (500 : ℚ) ≤ 450) ∧
      (alerte 450 400 500 = "ATTENTION" ↔ (400 : ℚ) ≤ 450 ∧ (450 : ℚ) < 500) ∧
      (alerte 450 400 500 = "OK" ↔ (450 : ℚ) < 400)) ∧
     alerte 500 400 500 = "DANGER" ∧
     alerte 499.999 400 500 = "ATTENTION" ∧
     alerte 399.999 400 500 = "OK") :=
  ⟨by norm_num, alerte_inclusive_lower_bounds 450 400 500 (by norm_num)⟩

/-- C2: the code's Combined Alert (`df[['Alerte_opsis','Alerte_baf']].max(axis=1)`,
a lexicographic string maximum) is not the higher-severity label: at a row
whose opsis prediction is 300 (OK under thresholds 350/450) and whose baf
prediction is 600 (DANGER under thresholds 400/500), the code produces "OK",
the lower severity, where the spec's severity maximum is "DANGER". -/
theorem combinedAlert_not_severity_max :
    alerte 300 350 450 = "OK" ∧
    alerte 600 400 500 = "DANGER" ∧
    combinedAlert (alerte 300 350 450) (alerte 600 400 500) = "OK" ∧
    specSeverityMax (alerte 300 350 450) (alerte 600 400 500) = "DANGER" ∧
    combinedAlert (alerte 300 350 450) (alerte 600 400 500) ≠
      specSeverityMax (alerte 300 350 450) (alerte 600 400 500) :=
  ⟨by decide, by decide, by decide, by decide, by decide⟩

/-- C9: the classifier is total on floats: it always returns one of the
three labels, and a NaN value (both comparisons false) yields "OK". -/
theorem alerteF_total_and_nan :
    (∀ v a d : FVal,
       alerteF v a d = "DANGER" ∨ alerteF v a d = "ATTENTION" ∨ alerteF v a d = "OK") ∧
    (∀ a d : FVal, alerteF .nan a d = "OK") ∧
    (∀ v a d : ℚ, alerteF (.fin v) (.fin a) (.fin d) = alerte v a d) := by
  refine ⟨?_, ?_, ?_⟩
  · intro v a d
    unfold alerteF
    split_ifs <;> simp
  · intro a d
    rfl
  · intro v a d
    unfold alerteF alerte fge
    simp only [decide_eq_true_eq, ge_iff_le]

/-- C10: for fixed thresholds `a < d` the classifier is monotone in its
value argument under the severity ordering OK < ATTENTION < DANGER. -/
theorem alerte_monotone (v1 v2 a d : ℚ) (_had : a < d) (h : v1 ≤ v2) :
    sevOf (alerte v1 a d) ≤ sevOf (alerte v2 a d) := by
  unfold alerte
  split_ifs <;> first | decide | linarith

/-- Witness for C10 at `v1 = 300, v2 = 600, a = 400, d = 500`. -/
theorem alerte_monotone_witness :
    ((400 : ℚ) < 500 ∧ (300 : ℚ) ≤ 600) ∧
    sevOf (alerte 300 400 500) ≤ sevOf (alerte 600 400 500) :=
  ⟨⟨by norm_num, by norm_num⟩, alerte_monotone 300 600 400 500 (by norm_num) (by norm_num)⟩

/-! ## Claims about imputation -/

/-- C3 counterexample: the column ["1","abc","3"] has cells that coerce to
numbers (1 and 3), yet feature assembly leaves its coercion-failure cell
missing: `X.mean()` is evaluated on the pre-coercion frame, where this
object-dtype column contributes no fill value, so its NaN survives
`.fillna` instead of becoming the mean 2. -/
theorem imputation_incomplete_mixed_column :
    (coerceColumn (readColumn ["1", "abc", "3"])).filterMap id = [1, 3] ∧
    assembleColumn ["1", "abc", "3"] = [some 1, none, some 3] ∧
    ¬ (∀ c ∈ assembleColumn ["1", "abc", "3"], c.isSome = true) :=
  ⟨by decide, by decide, by decide⟩

/-- C3 amended: imputation is complete — and each imputed cell equals the
arithmetic mean of the column's non-missing values in the currently loaded
dataset — exactly for the columns `read_csv` typed numeric (every
non-missing cell coerces); a column with a textual coercion failure is
excluded from the pre-coercion `X.mean()` and keeps its missing markers
after `.fillna` (under pandas >= 2.0 the mean call raises instead). -/
theorem fillna_complete_and_mean (col : List (Option String)) :
    (numericDtype col = true → (coerceColumn col).filterMap id ≠ [] →
       (∀ c ∈ fillna col, c.isSome = true) ∧
       (∀ i : ℕ, (coerceColumn col)[i]? = some none →
          (fillna col)[i]? =
            some (some (((coerceColumn col).filterMap id).sum /
              ((coerceColumn col).filterMap id).length)))) ∧
    (numericDtype col = false → fillna col = coerceColumn col) := by
  constructor
  · intro hd hne
    have hfill : fillna col =
        (coerceColumn col).map (fun c =>
          match c with
          | some v => some v
          | none => some (((coerceColumn col).filterMap id).sum /
              ((coerceColumn col).filterMap id).length)) := by
      unfold fillna rawColMean colMean
      rw [hd, if_pos rfl, if_neg hne]
    constructor
    · intro c hc
      rw [hfill] at hc
      rcases List.mem_map.mp hc with ⟨x, hx, rfl⟩
      cases x <;> rfl
    · intro i hi
      rw [hfill, List.getElem?_map, hi]
      rfl
  · intro hd
    unfold fillna rawColMean
    rw [hd]
    rfl

/-- Witness for C3's amended claim at the numeric column
`[some "1", none, some "4"]`. -/
theorem fillna_complete_and_mean_witness :
    (numericDtype [some "1", none, some "4"] = true ∧
     (coerceColumn [some "1", none, some "4"]).filterMap id ≠ []) ∧
    ((∀ c ∈ fillna [some "1", none, some "4"], c.isSome = true) ∧
     (∀ i : ℕ, (coerceColumn [some "1", none, some "4"])[i]? = some none →
        (fillna [some "1", none, some "4"])[i]? =
          some (some (((coerceColumn [some "1", none, some "4"]).filterMap id).sum /
            ((coerceColumn [some "1", none, some "4"]).filterMap id).length)))) :=
  ⟨⟨by decide, by decide⟩,
   (fillna_complete_and_mean [some "1", none, some "4"]).1 (by decide) (by decide)⟩

/-! ## Claims about date-column ingestion -/

theorem parseAllDates_isSome_iff (col : List String) :
    (parseAllDates col).isSome ↔ ∀ s ∈ col, (parseDate s).isSome := by
  induction col with
  | nil => simp [parseAllDates]
  | cons s rest ih =>
      unfold parseAllDates
      cases h1 : parseDate s <;> cases h2 : parseAllDates rest <;>
        rw [h2] at ih <;> simp_all

theorem parseAllDates_eq_map (col : List String) :
    ∀ ts, parseAllDates col = some ts → col.map parseDate = ts.map some := by
  induction col with
  | nil =>
      intro ts h
      simp [parseAllDates] at h
      simp [← h]
  | cons s rest ih =>
      intro ts h
      unfold parseAllDates at h
      cases h1 : parseDate s with
      | none => rw [h1] at h; simp at h
      | some t =>
          cases h2 : parseAllDates rest with
          | none => rw [h1, h2] at h; simp at h
          | some ts2 =>
              rw [h1, h2] at h
              simp only [Option.some.injEq] at h
              subst h
              simp [h1, ih ts2 h2]

/-- C5: the `date` column is parsed cell-wise under the fixed pattern
`DD.MM.YYYY HH:MM` (e.g. "01.01.2024 10:00" parses and the ISO form does
not); the column ingests as a whole exactly when every cell parses, and on
success every parsed timestamp is the parse of the corresponding cell — a
failing cell fails the whole upload, no row is silently dropped. -/
theorem ingestion_all_or_nothing (col : List String) :
    (parseDate "01.01.2024 10:00" = some ⟨1, 1, 2024, 10, 0⟩ ∧
     parseDate "2024-01-01 10:00:00" = none) ∧
    ((parseAllDates col).isSome ↔ ∀ s ∈ col, (parseDate s).isSome) ∧
    (∀ ts, parseAllDates col = some ts → col.map parseDate = ts.map some) :=
  ⟨⟨by decide, by decide⟩, parseAllDates_isSome_iff col, parseAllDates_eq_map col⟩

/-- Witness for C5 at the one-cell column ["01.01.2024 10:00"]. -/
theorem ingestion_all_or_nothing_witness :
    parseAllDates ["01.01.2024 10:00"] = some [⟨1, 1, 2024, 10, 0⟩] ∧
    (["01.01.2024 10:00"] : List String).map parseDate =
      ([⟨1, 1, 2024, 10, 0⟩] : List Timestamp).map some :=
  ⟨by decide,
   (ingestion_all_or_nothing ["01.01.2024 10:00"]).2.2 [⟨1, 1, 2024, 10, 0⟩] (by decide)⟩

/-! ## Round-trip through export -/

theorem takeWhile_append_of_all (p : Char → Bool) (a : List Char) (c : Char)
    (b : List Char) (ha : ∀ x ∈ a, p x = true) (hc : p c = false) :
    (a ++ c :: b).takeWhile p = a ∧ (a ++ c :: b).dropWhile p = c :: b := by
  induction a with
  | nil => simp [List.takeWhile_cons, List.dropWhile_cons, hc]
  | cons x xs ih =>
      have hx : p x = true := ha x (by simp)
      have ihh := ih (fun y hy => ha y (by simp [hy]))
      simp [List.takeWhile_cons, List.dropWhile_cons, hx, ihh.1, ihh.2]

theorem spanDigits_append (a : List Char) (c : Char) (b : List Char)
    (ha : ∀ x ∈ a, x.isDigit = true) (hc : c.isDigit = false) :
    spanDigits (a ++ c :: b) = (a, c :: b) := by
  have h := takeWhile_append_of_all (fun x => x.isDigit) a c b ha hc
  unfold spanDigits
  rw [h.1, h.2]

theorem digitChar_isDigit (k : ℕ) (hk : k < 10) : (digitChar k).isDigit = true := by
  interval_cases k <;> decide

theorem natDigitsAux_digits (fuel : ℕ) :
    ∀ n, ∀ c ∈ natDigitsAux fuel n, c.isDigit = true := by
  induction fuel with
  | zero => intro n c hc; simp [natDigitsAux] at hc
  | succ f ih =>
      intro n c hc
      unfold natDigitsAux at hc
      split_ifs at hc with h
      · rw [List.mem_singleton] at hc
        exact hc ▸ digitChar_isDigit n h
      · rcases List.mem_append.mp hc with h1 | h1
        · exact ih _ c h1
        · rw [List.mem_singleton] at h1
          exact h1 ▸ digitChar_isDigit _ (Nat.mod_lt n (by norm_num))

theorem natDigits_digits (n : ℕ) : ∀ c ∈ natDigits n, c.isDigit = true :=
  natDigitsAux_digits (n + 1) n

/-- Any text whose leading digit run is followed by a dash cannot parse
under the `%d.%m.%Y %H:%M` pattern, which demands a dot there. -/
theorem parseDateL_digits_dash (ds rest : List Char)
    (h : ∀ x ∈ ds, x.isDigit = true) :
    parseDateL (ds ++ '-' :: rest) = none := by
  have hs : spanDigits (ds ++ '-' :: rest) = (ds, '-' :: rest) :=
    spanDigits_append ds '-' rest h (by decide)
  unfold parseDateL
  rw [hs]
  by_cases hd : ds = [] <;> simp [hd]

/-- Re-ingesting an exported datetime cell always fails: `to_csv` renders
the timestamp as `YYYY-MM-DD HH:MM:SS`, whose year digits are followed by a
dash where the ingestion pattern requires a dot. -/
theorem parseDate_formatISO_none (t : Timestamp) :
    parseDate (formatISO t) = none := by
  show parseDateL (formatISOL t) = none
  unfold formatISOL
  simp only [List.append_assoc, List.cons_append, List.nil_append]
  have h := parseDateL_digits_dash (natDigits t.year)
    (pad2 t.month ++ '-' :: (pad2 t.day ++ ' ' :: (pad2 t.hour ++
      ':' :: (pad2 t.minute ++ ':' :: '0' :: '0' :: []))))
    (natDigits_digits t.year)
  simpa using h

/-- C4 counterexample: for the single record with date "01.01.2024 10:00",
ingestion parses the timestamp, export renders it as "2024-01-01 10:00:00",
and re-ingesting that text fails instead of reproducing the record. -/
theorem roundtrip_fails_concrete :
    parseDate "01.01.2024 10:00" = some ⟨1, 1, 2024, 10, 0⟩ ∧
    formatISO ⟨1, 1, 2024, 10, 0⟩ = "2024-01-01 10:00:00" ∧
    parseDate "2024-01-01 10:00:00" = none :=
  ⟨by decide, by decide, by decide⟩

/-- C4 amended: the export/re-ingest round trip never succeeds: every
exported datetime cell is in ISO form, which the `DD.MM.YYYY HH:MM`
ingestion pattern rejects, so re-ingesting the exported `date` column of
any non-empty table fails with a parse error rather than reproducing the
Raw Records. -/
theorem roundtrip_reingestion_fails :
    (∀ t : Timestamp, parseDate (formatISO t) = none) ∧
    (∀ ts : List Timestamp, ts ≠ [] →
       parseAllDates (ts.map formatISO) = none) := by
  refine ⟨parseDate_formatISO_none, ?_⟩
  intro ts hts
  cases ts with
  | nil => exact absurd rfl hts
  | cons t rest => simp [parseAllDates, parseDate_formatISO_none t]

/-- Witness for C4's amended claim at the one-timestamp column. -/
theorem roundtrip_reingestion_fails_witness :
    (([(⟨1, 1, 2024, 10, 0⟩ : Timestamp)] : List Timestamp) ≠ []) ∧
    parseAllDates (([(⟨1, 1, 2024, 10, 0⟩ : Timestamp)] : List Timestamp).map formatISO) = none :=
  ⟨by decide, roundtrip_reingestion_fails.2 _ (by decide)⟩

/-! ## Missing required columns -/

theorem getCol_none_of_hasCol_false (t : Table) (n : String)
    (h : hasCol t n = false) : getCol t n = none := by
  unfold getCol hasCol at *
  cases hfind : t.find? (fun c => c.fst == n) <;> rw [hfind] at h <;> simp_all

/-- C6 counterexample: `Nox11_creative.py` drops the reference columns with
errors='ignore', so an upload missing `Nox_baf` is not rejected: its
preparation succeeds and prediction proceeds. -/
theorem missing_reference_tolerated :
    hasCol missingBafTable "Nox_baf" = false ∧
    prepareIgnore missingBafTable = some [("sensorA", ["100"])] :=
  ⟨by decide, by decide⟩

/-- C6 amended: an upload missing the `date` column is rejected before any
prediction in every variant; an upload missing `Nox_baf` or `Nox opsis` is
rejected in the strict variants (`ap_NOX.py`, `Nox1_creative.py`,
`Nox2_creative.py`), while `Nox11_creative.py` silently tolerates it. -/
theorem missing_required_columns (t : Table) :
    (hasCol t "date" = false → prepareStrict t = none ∧ prepareIgnore t = none) ∧
    (hasCol t "Nox_baf" = false → prepareStrict t = none) ∧
    (hasCol t "Nox opsis" = false → prepareStrict t = none) := by
  refine ⟨?_, ?_, ?_⟩
  · intro h
    have hg : getCol t "date" = none := getCol_none_of_hasCol_false t "date" h
    constructor <;> simp [prepareStrict, prepareIgnore, ingest, hg]
  · intro h
    unfold prepareStrict ingest
    cases hg : getCol t "date" with
    | none => rfl
    | some dc =>
        cases hp : parseAllDates dc with
        | none => simp [hp]
        | some ts => simp [hp, dropStrict, excluded, h]
  · intro h
    unfold prepareStrict ingest
    cases hg : getCol t "date" with
    | none => rfl
    | some dc =>
        cases hp : parseAllDates dc with
        | none => simp [hp]
        | some ts => simp [hp, dropStrict, excluded, h]

/-- Witness for C6's amended claim at a table with no `date` column. -/
theorem missing_required_columns_witness :
    hasCol [("sensorA", ["1"])] "date" = false ∧
    (prepareStrict [("sensorA", ["1"])] = none ∧
     prepareIgnore [("sensorA", ["1"])] = none) :=
  ⟨by decide, (missing_required_columns [("sensorA", ["1"])]).1 (by decide)⟩

/-! ## Exported columns -/

/-- C8 counterexample: the `date` column's exported values are not the
uploaded ones: the scenario cell "01.01.2024 10:00" is exported as
"2024-01-01 10:00:00". -/
theorem export_rewrites_date_values :
    getCol scenarioTable "date" = some ["01.01.2024 10:00"] ∧
    ingest scenarioTable = some ([⟨1, 1, 2024, 10, 0⟩], scenarioTable) ∧
    formatISO ⟨1, 1, 2024, 10, 0⟩ = "2024-01-01 10:00:00" ∧
    ("2024-01-01 10:00:00" : String) ≠ "01.01.2024 10:00" :=
  ⟨by decide, by decide, by decide, by decide⟩

/-- Lexicographic facts about column lookup over the two shapes pandas
assignment produces: append of a fresh column and in-place overwrite. -/
theorem hasCol_append (u v : Table) (m : String) :
    hasCol (u ++ v) m = (hasCol u m || hasCol v m) := by
  unfold hasCol
  rw [List.find?_append]
  cases u.find? (fun c => c.fst == m) <;> simp [Option.or]

theorem hasCol_singleton (n m : String) (vals : List String) :
    hasCol [(n, vals)] m = (n == m) := by
  unfold hasCol
  cases hnm : (n == m) <;> simp [List.find?, hnm]

theorem getCol_append_left (u v : Table) (c : String) (h : hasCol u c = true) :
    getCol (u ++ v) c = getCol u c := by
  unfold getCol hasCol at *
  rw [List.find?_append]
  cases hf : u.find? (fun x => x.fst == c) with
  | none => rw [hf] at h; simp at h
  | some x => simp [Option.or]

theorem hasCol_map_eq (t : Table) (f : String × List String → String × List String)
    (hf : ∀ x, (f x).fst = x.fst) (m : String) :
    hasCol (t.map f) m = hasCol t m := by
  unfold hasCol
  rw [List.find?_map]
  have hcomp : ((fun c : String × List String => c.fst == m) ∘ f) =
      (fun c : String × List String => c.fst == m) := by
    funext x
    simp [Function.comp, hf]
  rw [hcomp]
  cases t.find? (fun c => c.fst == m) <;> simp

theorem getCol_overwrite_ne (t : Table) (n c : String) (vals : List String)
    (hc : c ≠ n) :
    getCol (t.map (fun x => if x.fst == n then (n, vals) else x)) c = getCol t c := by
  unfold getCol
  rw [List.find?_map]
  have hcomp : ((fun x : String × List String => x.fst == c) ∘
      (fun x => if x.fst == n then (n, vals) else x)) =
      (fun x : String × List String => x.fst == c) := by
    funext x
    by_cases hx : x.fst = n
    · simp [Function.comp, hx, Ne.symm hc]
    · simp [Function.comp, hx]
  rw [hcomp]
  cases hf : t.find? (fun x => x.fst == c) with
  | none => simp
  | some x =>
      have hx := List.find?_some hf
      simp only [beq_iff_eq] at hx
      have hxn : x.fst ≠ n := by rw [hx]; exact hc
      simp [hxn]

theorem getCol_overwrite_self (t : Table) (n : String) (vals : List String)
    (h : hasCol t n = true) :
    getCol (t.map (fun x => if x.fst == n then (n, vals) else x)) n = some vals := by
  unfold getCol hasCol at *
  rw [List.find?_map]
  have hcomp : ((fun x : String × List String => x.fst == n) ∘
      (fun x => if x.fst == n then (n, vals) else x)) =
      (fun x : String × List String => x.fst == n) := by
    funext x
    by_cases hx : x.fst = n <;> simp [Function.comp, hx]
  rw [hcomp]
  cases hf : t.find? (fun x => x.fst == n) with
  | none => rw [hf] at h; simp at h
  | some x =>
      have hx := List.find?_some hf
      simp only [beq_iff_eq] at hx
      simp [hx]

theorem overwrite_names (t : Table) (n : String) (vals : List String) :
    (t.map (fun x => if x.fst == n then (n, vals) else x)).map Prod.fst =
      t.map Prod.fst := by
  induction t with
  | nil => rfl
  | cons x xs ih =>
      simp only [List.map_cons]
      rw [ih]
      by_cases hx : x.fst = n <;> simp [hx]

theorem setCol_overwrite (t : Table) (n : String) (vals : List String)
    (h : hasCol t n = true) :
    setCol t n vals = t.map (fun x => if x.fst == n then (n, vals) else x) := by
  simp [setCol, h]

theorem setCol_fresh (t : Table) (n : String) (vals : List String)
    (h : hasCol t n = false) :
    setCol t n vals = t ++ [(n, vals)] := by
  simp [setCol, h]

/-- C8 amended: provided the upload carries none of the four derived column
names, the exported table holds every original column in its position —
values unchanged except `date` — plus exactly the derived columns
Nox_baf_pred, Nox_opsis_pred, Alerte_baf, Alerte_opsis appended at the end;
the `date` column's values are rewritten to ISO text, which never equals a
cell the ingestion pattern accepted. The proviso is needed because pandas
assignment overwrites in place an existing column of the same name (last
conjunct). -/
theorem export_columns_preserved (t : Table) (ts : List Timestamp)
    (p1 p2 a1 a2 : List String)
    (hdate : hasCol t "date" = true)
    (hfree : ∀ d ∈ derivedCols, hasCol t d = false) :
    (exportTable t ts p1 p2 a1 a2).map Prod.fst = t.map Prod.fst ++ derivedCols ∧
    (∀ c, hasCol t c = true → c ≠ "date" →
       getCol (exportTable t ts p1 p2 a1 a2) c = getCol t c) ∧
    getCol (exportTable t ts p1 p2 a1 a2) "date" = some (ts.map formatISO) ∧
    (∀ s u, parseDate s = some u → formatISO u ≠ s) ∧
    (∀ (u : Table) (n : String) (vals : List String), hasCol u n = true →
       getCol (setCol u n vals) n = some vals) := by
  have hovw : ∀ x : String × List String,
      (if x.fst == "date" then ("date", ts.map formatISO) else x).fst = x.fst := by
    intro x
    by_cases hx : x.fst = "date" <;> simp [hx]
  have hmapCol : ∀ m, hasCol
      (t.map (fun x => if x.fst == "date" then ("date", ts.map formatISO) else x)) m =
      hasCol t m :=
    fun m => hasCol_map_eq t _ hovw m
  have h1 : hasCol
      (t.map (fun x => if x.fst == "date" then ("date", ts.map formatISO) else x))
      "Nox_baf_pred" = false := by
    rw [hmapCol]
    exact hfree "Nox_baf_pred" (by decide)
  have h2 : hasCol
      (t.map (fun x => if x.fst == "date" then ("date", ts.map formatISO) else x) ++
        [("Nox_baf_pred", p1)]) "Nox_opsis_pred" = false := by
    rw [hasCol_append, hmapCol, hasCol_singleton]
    rw [hfree "Nox_opsis_pred" (by decide)]
    rfl
  have h3 : hasCol
      ((t.map (fun x => if x.fst == "date" then ("date", ts.map formatISO) else x) ++
        [("Nox_baf_pred", p1)]) ++ [("Nox_opsis_pred", p2)]) "Alerte_baf" = false := by
    rw [hasCol_append, hasCol_append, hmapCol, hasCol_singleton, hasCol_singleton]
    rw [hfree "Alerte_baf" (by decide)]
    rfl
  have h4 : hasCol
      (((t.map (fun x => if x.fst == "date" then ("date", ts.map formatISO) else x) ++
        [("Nox_baf_pred", p1)]) ++ [("Nox_opsis_pred", p2)]) ++ [("Alerte_baf", a1)])
      "Alerte_opsis" = false := by
    rw [hasCol_append, hasCol_append, hasCol_append, hmapCol,
      hasCol_singleton, hasCol_singleton, hasCol_singleton]
    rw [hfree "Alerte_opsis" (by decide)]
    rfl
  have hT : exportTable t ts p1 p2 a1 a2 =
      t.map (fun x => if x.fst == "date" then ("date", ts.map formatISO) else x) ++
        [("Nox_baf_pred", p1), ("Nox_opsis_pred", p2),
         ("Alerte_baf", a1), ("Alerte_opsis", a2)] := by
    unfold exportTable
    rw [setCol_overwrite t "date" (ts.map formatISO) hdate,
      setCol_fresh _ _ _ h1, setCol_fresh _ _ _ h2,
      setCol_fresh _ _ _ h3, setCol_fresh _ _ _ h4]
    simp [List.append_assoc]
  refine ⟨?_, ?_, ?_, ?_, ?_⟩
  · rw [hT, List.map_append, overwrite_names]
    rfl
  · intro c hc hcd
    rw [hT, getCol_append_left _ _ c (by rw [hmapCol]; exact hc),
      getCol_overwrite_ne t "date" c _ hcd]
  · rw [hT, getCol_append_left _ _ "date" (by rw [hmapCol]; exact hdate),
      getCol_overwrite_self t "date" _ hdate]
  · intro s u hp heq
    have hn := parseDate_formatISO_none u
    rw [heq, hp] at hn
    exact Option.noConfusion hn
  · intro u n vals hu
    rw [setCol_overwrite u n vals hu]
    exact getCol_overwrite_self u n vals hu

/-- Witness for C8's amended claim at a concrete collision-free upload. -/
theorem export_columns_preserved_witness :
    (hasCol sampleUpload "date" = true ∧
     (∀ d ∈ derivedCols, hasCol sampleUpload d = false)) ∧
    ((exportTable sampleUpload [⟨1, 1, 2024, 10, 0⟩]
        ["420"] ["300"] ["ATTENTION"] ["OK"]).map Prod.fst =
       sampleUpload.map Prod.fst ++ derivedCols ∧
     (∀ c, hasCol sampleUpload c = true → c ≠ "date" →
        getCol (exportTable sampleUpload [⟨1, 1, 2024, 10, 0⟩]
          ["420"] ["300"] ["ATTENTION"] ["OK"]) c = getCol sampleUpload c) ∧
     getCol (exportTable sampleUpload [⟨1, 1, 2024, 10, 0⟩]
        ["420"] ["300"] ["ATTENTION"] ["OK"]) "date" =
       some (([⟨1, 1, 2024, 10, 0⟩] : List Timestamp).map formatISO) ∧
     (∀ s u, parseDate s = some u → formatISO u ≠ s) ∧
     (∀ (u : Table) (n : String) (vals : List String), hasCol u n = true →
        getCol (setCol u n vals) n = some vals)) :=
  ⟨⟨by decide, by decide⟩,
   export_columns_preserved sampleUpload [⟨1, 1, 2024, 10, 0⟩]
     ["420"] ["300"] ["ATTENTION"] ["OK"] (by decide) (by decide)⟩

/-! ## Claims about the end-to-end scenario -/

/-- C7 counterexample: the same scenario run through `Nox1_creative.py`
yields the emoji-prefixed label "⚠️ ATTENTION", which is not exactly the
string "ATTENTION". -/
theorem scenario_nox1_emoji_label :
    nox1PipelineBaf (fun _ => 420) scenarioTable = some [(420, "⚠️ ATTENTION")] ∧
    ("⚠️ ATTENTION" : String) ≠ "ATTENTION" :=
  ⟨by decide, by decide⟩

/-- C7 amended: the scenario row (date=01.01.2024 10:00, sensorA=100,
sensorB=50, empty references) with the baf model stubbed to 420 and
thresholds (400, 500) yields Nox_baf_pred = 420 in every variant; the
Alerte_baf string is exactly "ATTENTION" through `ap_NOX.py` (and the other
plain-label variants), while `Nox1_creative.py` emits "⚠️ ATTENTION". -/
theorem scenario_attention :
    apNoxPipelineBaf (fun _ => 420) scenarioTable = some [(420, "ATTENTION")] ∧
    nox1PipelineBaf (fun _ => 420) scenarioTable = some [(420, "⚠️ ATTENTION")] :=
  ⟨by decide, by decide⟩

end NoxApp
